import Mathlib

/-!
# zksync-example: the CLI orchestrator of `main.go`

A shallow embedding of `main.go`.  The program is a linear script over external
collaborators (the zkSync SDK, go-ethereum's `hexutil`, `rpc` and `common`, and the
standard library's `os`, `json`, `fmt`, `time`).  The collaborators are not part of the
repository; they enter as a record `Env` of mocked operations over an arbitrary mock
state `σ`, so a mock may answer the same call differently at different times.

Every call the program makes to a collaborator, every line it prints and every sleep is
recorded, in order, in an effect trace.  Go's `(value, error)` results are pairs whose
components are `Option`s where Go has a nullable reference (`nil` is `none`).  A panic
ends the run and keeps the trace accumulated so far.

Conventions:
* a method called through a nil reference panics with the runtime's nil dereference,
  as the SDK's pointer-receiver methods do; `(*big.Int).String` alone accepts nil;
* the getters and conversions `GetAddress`, `HexToAddress` and `CreateETH` are pure and
  leave no trace; the optional arguments the program always passes as `nil` are omitted;
* what is printed is recorded as the `fmt` call with its arguments, not as rendered
  text; a panic message is the rendered string, the text of the error appended to the
  literal part of the format.
-/

namespace ZkExample

/-! ## Values exchanged with the collaborators -/

/-- A Go `error` value; `Error` is the text of its `Error()` method. -/
structure Err where
  Error : String
deriving DecidableEq, Repr

/-- A Go byte slice. -/
abbrev Bytes := List Nat

/-- The value `common.Address`. -/
structure Address where
  val : Nat
deriving DecidableEq, Repr

/-- The value `common.Hash`. -/
structure Hash where
  val : Nat
deriving DecidableEq, Repr

/-- The object behind `*types.Transaction`, the result of a layer-1 deposit. -/
structure Tx where
  Hash : Hash
deriving DecidableEq, Repr

/-- The object behind `*zksync2.DefaultEthSigner`. -/
structure Signer where
  id : Nat
deriving DecidableEq, Repr

/-- The object behind `*zksync2.DefaultProvider` (layer 2). -/
structure Provider where
  id : Nat
deriving DecidableEq, Repr

/-- The object behind `*zksync2.Wallet`. -/
structure Wallet where
  id : Nat
deriving DecidableEq, Repr

/-- The object behind `*rpc.Client` (layer 1). -/
structure Client where
  id : Nat
deriving DecidableEq, Repr

/-- The object behind a `zksync2.EthProvider` interface value (layer 1). -/
structure EthProvider where
  id : Nat
deriving DecidableEq, Repr

/-- The token descriptor; `CreateETH` is the only one the program builds. -/
inductive Token where
  | CreateETH
deriving DecidableEq, Repr

/-- The block tag; `BlockNumberCommitted` is the only one the program uses. -/
inductive BlockNumber where
  | BlockNumberCommitted
deriving DecidableEq, Repr

/-- The object behind `*zksync2.TransactionReceipt`, with the four fields `Transfer`
reads.  `To`, `L1BatchNumber` and `L1BatchTxIndex` are references and may be nil. -/
structure Receipt where
  To : Option Address
  ContractAddress : Address
  L1BatchNumber : Option Int
  L1BatchTxIndex : Option Int
deriving DecidableEq, Repr

/-- `Config` (main.go:18-23).  The JSON keys of its struct tags, `account_pk`, `zk_url`,
`eth_url` and `zk_chain_id`, are `Field.tag` below. -/
structure Config where
  AccountPk : String
  ZkUrl : String
  EthUrl : String
  ZkChainId : Int
deriving DecidableEq, Repr

/-- The zero value that `new(Config)` allocates (main.go:16). -/
def Config.zero : Config := ⟨"", "", "", 0⟩

/-- `Instance` (main.go:49-55).  Every field is a reference; `none` is Go's nil. -/
structure Instance where
  signer : Option Signer := none
  wallet : Option Wallet := none
  geth : Option Client := none
  zkProvider : Option Provider := none
  ethProvider : Option EthProvider := none
deriving DecidableEq, Repr

/-! ## Effects -/

/-- An argument handed to `fmt.Printf`. -/
inductive Val where
  /-- The string `h.Hex()` of a hash. -/
  | hashHex (h : Hash)
  /-- The string `a.Hex()` of an address. -/
  | addrHex (a : Address)
  /-- An address passed as such. -/
  | addr (a : Address)
  /-- The string `b.String()` of a `*big.Int`; a nil receiver prints as `<nil>`. -/
  | bigString (b : Option Int)
  /-- The string `b.String()` of a non-nil `*hexutil.Big`. -/
  | hexBigString (b : Int)
deriving DecidableEq, Repr

/-- One observable effect of the program. -/
inductive Event where
  | ReadFile (name : String)
  | Unmarshal (raw : Bytes)
  | Decode (input : String)
  | NewEthSignerFromRawPrivateKey (rawPk : Bytes) (chainId : Int)
  | NewDefaultProvider (rawUrl : String)
  | NewWallet (es : Option Signer) (zp : Option Provider)
  | Dial (rawurl : String)
  | CreateEthereumProvider (w : Wallet) (rpcClient : Option Client)
  | GetBalanceOf (w : Wallet) (address : Address) (token : Token) (block : BlockNumber)
  | Deposit (p : EthProvider) (token : Token) (amount : Int) (address : Address)
  | Transfer (w : Wallet) (dest : Address) (amount : Int)
  | Withdraw (w : Wallet) (dest : Address) (amount : Int)
  | GetTransactionReceipt (p : Provider) (txHash : Hash)
  | Sleep (seconds : Nat)
  | Println (args : List String)
  | Printf (format : String) (args : List Val)
deriving DecidableEq, Repr

/-- The value a run panics with. -/
inductive Panic where
  /-- The program called `panic` with this message. -/
  | msg (s : String)
  /-- The runtime error raised when a nil reference is dereferenced. -/
  | nilDeref
deriving DecidableEq, Repr

/-- The mocked collaborators.  Calls that reach a network or the file system take and
return the mock state; pure conversions do not. -/
structure Env (σ : Type) where
  ReadFile : String → σ → (Bytes × Option Err) × σ
  Unmarshal : Bytes → Config → Config × Option Err
  Decode : String → Bytes × Option Err
  NewEthSignerFromRawPrivateKey : Bytes → Int → σ → (Option Signer × Option Err) × σ
  NewDefaultProvider : String → σ → (Option Provider × Option Err) × σ
  NewWallet : Option Signer → Option Provider → σ → (Option Wallet × Option Err) × σ
  Dial : String → σ → (Option Client × Option Err) × σ
  CreateEthereumProvider : Wallet → Option Client → σ → (Option EthProvider × Option Err) × σ
  HexToAddress : String → Address
  GetAddress : Signer → Address
  GetBalanceOf : Wallet → Address → Token → BlockNumber → σ → (Option Int × Option Err) × σ
  Deposit : EthProvider → Token → Int → Address → σ → (Option Tx × Option Err) × σ
  Transfer : Wallet → Address → Int → σ → (Hash × Option Err) × σ
  Withdraw : Wallet → Address → Int → σ → (Hash × Option Err) × σ
  GetTransactionReceipt : Provider → Hash → σ → (Option Receipt × Option Err) × σ

/-- The state of a run: the mock's state, the global `conf` and the trace so far. -/
structure St (σ : Type) where
  world : σ
  conf : Config
  out : List Event

/-- The state a process starts in: `conf` is the zero `Config`, nothing has happened. -/
def St.start {σ : Type} (w : σ) : St σ := ⟨w, Config.zero, []⟩

/-- How a Go function ends. -/
inductive Outcome (α : Type) where
  | ret (a : α)
  | panic (p : Panic)
deriving DecidableEq, Repr

/-- A Go procedure: from a state to an outcome and the state it leaves. -/
def Go (σ α : Type) : Type := St σ → Outcome α × St σ

namespace Go

variable {σ α β ρ : Type}

/-- Return normally. -/
def ret (a : α) : Go σ α := fun s => (Outcome.ret a, s)

/-- Sequencing: a panic in the first part skips the rest. -/
def andThen (x : Go σ α) (f : α → Go σ β) : Go σ β := fun s =>
  match x s with
  | (Outcome.ret a, s1) => f a s1
  | (Outcome.panic p, s1) => (Outcome.panic p, s1)

instance : Monad (Go σ) where
  pure := ret
  bind := andThen

/-- Go's `panic`. -/
def panic (p : Panic) : Go σ α := fun s => (Outcome.panic p, s)

/-- Record an effect. -/
def emit (e : Event) : Go σ Unit := fun s => (Outcome.ret (), { s with out := s.out ++ [e] })

/-- Call a stateful collaborator, recording the call. -/
def call (e : Event) (f : σ → ρ × σ) : Go σ ρ := fun s =>
  (Outcome.ret (f s.world).1, { s with world := (f s.world).2, out := s.out ++ [e] })

/-- Call a pure collaborator, recording the call. -/
def callPure (e : Event) (r : ρ) : Go σ ρ := fun s =>
  (Outcome.ret r, { s with out := s.out ++ [e] })

/-- Use a reference: nil panics. -/
def deref (r : Option α) : Go σ α :=
  match r with
  | some a => ret a
  | none => panic Panic.nilDeref

/-- Read the global `conf`. -/
def getConf : Go σ Config := fun s => (Outcome.ret s.conf, s)

/-- Overwrite the global `conf`. -/
def setConf (c : Config) : Go σ Unit := fun s => (Outcome.ret (), { s with conf := c })

end Go

open Go

variable {σ : Type}

/-! ## The program -/

/-- The function `initialize` of main.go:25-34 (its name is reserved in Lean). -/
def initConfig (env : Env σ) : Go σ Unit := do
  let r ← call (Event.ReadFile "config.json") (env.ReadFile "config.json")
  match r.2 with
  | some err => panic (Panic.msg ("read config file failed, err: " ++ err.Error))
  | none => do
    let conf ← getConf
    let u ← callPure (Event.Unmarshal r.1) (env.Unmarshal r.1 conf)
    setConf u.1
    match u.2 with
    | some err => panic (Panic.msg ("unmarshal config failed, err: " ++ err.Error))
    | none => pure ()

/-- `newInstance` (main.go:122-156).  Each step stores the value it got into `ins`
before the error is looked at, and the named results `(ins, err)` are returned as they
stand. -/
def newInstance (env : Env σ) : Go σ (Instance × Option Err) := do
  let conf ← getConf
  let ins : Instance := {}
  let d ← callPure (Event.Decode conf.AccountPk) (env.Decode conf.AccountPk)
  match d.2 with
  | some err => pure (ins, some err)
  | none => do
    let pkBytes := d.1
    let r1 ← call (Event.NewEthSignerFromRawPrivateKey pkBytes conf.ZkChainId)
      (env.NewEthSignerFromRawPrivateKey pkBytes conf.ZkChainId)
    let ins := { ins with signer := r1.1 }
    match r1.2 with
    | some err => pure (ins, some err)
    | none => do
      let r2 ← call (Event.NewDefaultProvider conf.ZkUrl) (env.NewDefaultProvider conf.ZkUrl)
      let ins := { ins with zkProvider := r2.1 }
      match r2.2 with
      | some err => pure (ins, some err)
      | none => do
        let r3 ← call (Event.NewWallet ins.signer ins.zkProvider)
          (env.NewWallet ins.signer ins.zkProvider)
        let ins := { ins with wallet := r3.1 }
        match r3.2 with
        | some err => pure (ins, some err)
        | none => do
          let r4 ← call (Event.Dial conf.EthUrl) (env.Dial conf.EthUrl)
          let ins := { ins with geth := r4.1 }
          match r4.2 with
          | some err => pure (ins, some err)
          | none => do
            let w ← deref ins.wallet
            let r5 ← call (Event.CreateEthereumProvider w ins.geth)
              (env.CreateEthereumProvider w ins.geth)
            let ins := { ins with ethProvider := r5.1 }
            match r5.2 with
            | some err => pure (ins, some err)
            | none => pure (ins, none)

/-- `split` (main.go:158-164): five `fmt.Println` calls. -/
def split (name desc : String) : Go σ Unit := do
  emit (Event.Println
    ["================================================================================================="])
  emit (Event.Println ["test", name, ":"])
  emit (Event.Println [desc])
  emit (Event.Println [""])
  emit (Event.Println [""])

/-- `Instance.Deposit` (main.go:58-75). -/
def Deposit (env : Env σ) (ins : Instance) : Go σ Unit := do
  split "deposit"
    "signer deposit l1 ether to l2, and the asset will be locked in contract of diamondProxy"
  let sg ← deref ins.signer
  let dest := env.GetAddress sg
  let amount : Int := 1000000000000000
  let wl ← deref ins.wallet
  let b1 ← call (Event.GetBalanceOf wl dest Token.CreateETH BlockNumber.BlockNumberCommitted)
    (env.GetBalanceOf wl dest Token.CreateETH BlockNumber.BlockNumberCommitted)
  let balance1 := b1.1
  let ep ← deref ins.ethProvider
  let r ← call (Event.Deposit ep Token.CreateETH amount dest)
    (env.Deposit ep Token.CreateETH amount dest)
  match r.2 with
  | some err => panic (Panic.msg ("deposit failed, err: " ++ err.Error))
  | none => do
    let tx ← deref r.1
    emit (Event.Printf "deposit success %s\r\n" [Val.hashHex tx.Hash])
    emit (Event.Sleep 5)
    let b2 ← call (Event.GetBalanceOf wl dest Token.CreateETH BlockNumber.BlockNumberCommitted)
      (env.GetBalanceOf wl dest Token.CreateETH BlockNumber.BlockNumberCommitted)
    let balance2 := b2.1
    emit (Event.Printf "before deposit amount %s, after deposit amount %s\r\n"
      [Val.bigString balance1, Val.bigString balance2])

/-- `Instance.Transfer` (main.go:77-101). -/
def Transfer (env : Env σ) (ins : Instance) : Go σ Unit := do
  split "transfer" "signer transfer mirror asset `ether` on l2"
  let dest := env.HexToAddress "0x5Ed9a6713962f04DA057e6A949394e002855DF72"
  let amount : Int := 1000000000000000
  let wl ← deref ins.wallet
  let b1 ← call (Event.GetBalanceOf wl dest Token.CreateETH BlockNumber.BlockNumberCommitted)
    (env.GetBalanceOf wl dest Token.CreateETH BlockNumber.BlockNumberCommitted)
  let balance1 := b1.1
  let r ← call (Event.Transfer wl dest amount) (env.Transfer wl dest amount)
  let hash := r.1
  match r.2 with
  | some err => panic (Panic.msg ("transfer failed, err: " ++ err.Error))
  | none => do
    emit (Event.Printf "transfer success %s\r\n" [Val.hashHex hash])
    emit (Event.Sleep 5)
    let zp ← deref ins.zkProvider
    let rc ← call (Event.GetTransactionReceipt zp hash) (env.GetTransactionReceipt zp hash)
    let receipt ← deref rc.1
    let rto ← deref receipt.To
    let bn ← deref receipt.L1BatchNumber
    let bi ← deref receipt.L1BatchTxIndex
    emit (Event.Printf
      "receipt.to %s, dest contract address is %s, L1BatchNumber %s, L1BatchTransactionIndex %s \r\n"
      [Val.addrHex rto, Val.addr receipt.ContractAddress, Val.hexBigString bn,
        Val.hexBigString bi])
    let b2 ← call (Event.GetBalanceOf wl dest Token.CreateETH BlockNumber.BlockNumberCommitted)
      (env.GetBalanceOf wl dest Token.CreateETH BlockNumber.BlockNumberCommitted)
    let balance2 := b2.1
    emit (Event.Printf "before transfer amount %s, after transfer amount %s\r\n"
      [Val.bigString balance1, Val.bigString balance2])

/-- `Instance.Withdrawal` (main.go:103-120). -/
def Withdrawal (env : Env σ) (ins : Instance) : Go σ Unit := do
  split "withdrawal" "signer withdraw asset from l2 to l1"
  let sg ← deref ins.signer
  let receipt := env.GetAddress sg
  let amount : Int := 1000000000000
  let wl ← deref ins.wallet
  let b1 ← call (Event.GetBalanceOf wl receipt Token.CreateETH BlockNumber.BlockNumberCommitted)
    (env.GetBalanceOf wl receipt Token.CreateETH BlockNumber.BlockNumberCommitted)
  let balance1 := b1.1
  let r ← call (Event.Withdraw wl receipt amount) (env.Withdraw wl receipt amount)
  let hash := r.1
  match r.2 with
  | some err => panic (Panic.msg ("withdrawal failed, err: " ++ err.Error))
  | none => do
    emit (Event.Printf "withdrawal succeed %s\r\n" [Val.hashHex hash])
    emit (Event.Sleep 5)
    let b2 ← call (Event.GetBalanceOf wl receipt Token.CreateETH BlockNumber.BlockNumberCommitted)
      (env.GetBalanceOf wl receipt Token.CreateETH BlockNumber.BlockNumberCommitted)
    let balance2 := b2.1
    emit (Event.Printf "before withdraw amount %s, after withdraw amount %s\r\n"
      [Val.bigString balance1, Val.bigString balance2])

/-- `main` (main.go:36-47): only `Withdrawal` is called; the calls to `Deposit` and
`Transfer` are commented out in the source. -/
def main (env : Env σ) : Go σ Unit := do
  initConfig env
  let r ← newInstance env
  match r.2 with
  | some err => panic (Panic.msg ("generate instance failed, err: " ++ err.Error))
  | none => Withdrawal env r.1

/-- The five lines `split name desc` prints, as trace events. -/
def splitTrace (name desc : String) : List Event :=
  [Event.Println
      ["================================================================================================="],
    Event.Println ["test", name, ":"],
    Event.Println [desc],
    Event.Println [""],
    Event.Println [""]]

/-! ## Decoding `config.json` into `Config`

`json.Unmarshal(raw, conf)` decodes by reflection over the struct tags of `Config`.
`initConfig` above takes the call as the parameter `Env.Unmarshal`; this section gives
the decoder the tags determine, to be put in that place by `Env.withJson`.  The syntax
of JSON is the library's and stays a parameter (`Json.parse`); what is done with a
parsed document follows the documentation of `encoding/json` for struct targets: keys
are matched to tags exactly or else up to case, unknown keys are skipped, members are
decoded in order, `null` changes nothing, a value that does not fit its field is
skipped and the first such error is returned at the end. -/

/-- A value inside a JSON object, as far as decoding into a string or integer field can
tell values apart.  `num` is a number literal that is a plain integer, `frac` one with a
fraction or an exponent; the contents of arrays and objects are irrelevant. -/
inductive JVal where
  | null
  | bool (b : Bool)
  | str (s : String)
  | num (n : Int)
  | frac (literal : String)
  | arr
  | obj
deriving DecidableEq, Repr

/-- A parsed JSON document: an object with its members in the order of the text, or any
other value. -/
inductive JDoc where
  | object (members : List (String × JVal))
  | other (v : JVal)
deriving DecidableEq, Repr

/-- The parts of `encoding/json` that do not depend on `Config`: the parser of the text,
failing with a syntax error, and the error value reported when a value does not fit the
field named by a key (`UnmarshalTypeError`). -/
structure Json where
  parse : Bytes → Except Err JDoc
  typeError : String → JVal → Err

/-- The four fields of `Config` (main.go:19-22). -/
inductive Field where
  | AccountPk
  | ZkUrl
  | EthUrl
  | ZkChainId
deriving DecidableEq, Repr

/-- The JSON key of a field, from its struct tag (main.go:19-22). -/
def Field.tag : Field → String
  | Field.AccountPk => "account_pk"
  | Field.ZkUrl => "zk_url"
  | Field.EthUrl => "eth_url"
  | Field.ZkChainId => "zk_chain_id"

/-- The fields in declaration order. -/
def Config.fields : List Field :=
  [Field.AccountPk, Field.ZkUrl, Field.EthUrl, Field.ZkChainId]

/-- The content of a field, as a JSON value: three strings and an integer. -/
def Config.get (c : Config) : Field → JVal
  | Field.AccountPk => JVal.str c.AccountPk
  | Field.ZkUrl => JVal.str c.ZkUrl
  | Field.EthUrl => JVal.str c.EthUrl
  | Field.ZkChainId => JVal.num c.ZkChainId

/-- Case folding of one character, as far as it can make a key equal to an ASCII name:
the letters `a`-`z` fold to `A`-`Z`, and so do the Kelvin sign and the long s. -/
def foldRune (c : Char) : Char :=
  if 97 ≤ c.toNat ∧ c.toNat ≤ 122 then Char.ofNat (c.toNat - 32)
  else if c.toNat = 8490 then 'K'
  else if c.toNat = 383 then 'S'
  else c

/-- Case folding of a key. -/
def foldName (s : String) : String := ⟨s.data.map foldRune⟩

/-- The field a key of the document is decoded into: the one whose tag is the key, or
else the one whose tag equals the key up to case; none for an unknown key. -/
def Config.fieldOf (key : String) : Option Field :=
  match Config.fields.find? (fun f => f.tag == key) with
  | some f => some f
  | none => Config.fields.find? (fun f => foldName f.tag == foldName key)

/-- Store one value into one field.  `null` leaves the field as it is; a string goes
into a string field and an integer literal within the range of `int64` into
`ZkChainId`; anything else leaves the field as it is and reports a type error. -/
def Config.store (J : Json) (c : Config) (f : Field) (v : JVal) : Config × Option Err :=
  match f, v with
  | _, JVal.null => (c, none)
  | Field.AccountPk, JVal.str s => ({ c with AccountPk := s }, none)
  | Field.ZkUrl, JVal.str s => ({ c with ZkUrl := s }, none)
  | Field.EthUrl, JVal.str s => ({ c with EthUrl := s }, none)
  | Field.ZkChainId, JVal.num n =>
    if -9223372036854775808 ≤ n ∧ n ≤ 9223372036854775807 then
      ({ c with ZkChainId := n }, none)
    else (c, some (J.typeError f.tag v))
  | _, _ => (c, some (J.typeError f.tag v))

/-- Decode one member of the object: a member with an unknown key is skipped; the first
type error is the one kept, and decoding goes on after it. -/
def decodeMember (J : Json) (acc : Config × Option Err) (m : String × JVal) :
    Config × Option Err :=
  match Config.fieldOf m.1 with
  | none => acc
  | some f =>
    match acc.2 with
    | some e => ((Config.store J acc.1 f m.2).1, some e)
    | none => Config.store J acc.1 f m.2

/-- `json.Unmarshal(raw, conf)` for `conf : *Config`.  A text that is not JSON is
rejected before `conf` is touched.  An object is decoded member by member, in order;
`null` changes nothing; any other value is a type error. -/
def UnmarshalConfig (J : Json) (raw : Bytes) (c : Config) : Config × Option Err :=
  match J.parse raw with
  | Except.error e => (c, some e)
  | Except.ok (JDoc.object members) => members.foldl (decodeMember J) (c, none)
  | Except.ok (JDoc.other JVal.null) => (c, none)
  | Except.ok (JDoc.other v) => (c, some (J.typeError "" v))

/-- The collaborators `env` with `json.Unmarshal` being the decoder of `Config` over the
library parts `J`. -/
def Env.withJson (env : Env σ) (J : Json) : Env σ :=
  { env with Unmarshal := UnmarshalConfig J }

/-- The object binds the key of field `f` to `v`: the member `f.tag : v` is present, and
every member decoded into `f` (the key repeated, or spelled in another case) carries
that same `v`. -/
def Binds (members : List (String × JVal)) (f : Field) (v : JVal) : Prop :=
  (f.tag, v) ∈ members ∧ ∀ m ∈ members, Config.fieldOf m.1 = some f → m.2 = v

/-! ## Comparing the shapes of two operations -/

/-- The shape of an effect: what is printed is forgotten, everything else is kept. -/
def Event.shape : Event → Event
  | Event.Println _ => Event.Println []
  | Event.Printf _ _ => Event.Printf "" []
  | e => e

/-- The substitution the specification describes for `Withdrawal`: a deposit through the
layer-1 provider becomes a withdrawal through the wallet `wl`, with the same
destination and the same amount; every other effect stays. -/
def depositAsWithdraw (wl : Wallet) : Event → Event
  | Event.Deposit _ _ amount dest => Event.Withdraw wl dest amount
  | e => e

/-- The substitution that also replaces the amount: a deposit through the layer-1
provider becomes a withdrawal of `amount` through the wallet `wl`, with the same
destination; every other effect stays. -/
def depositAsWithdrawOf (wl : Wallet) (amount : Int) : Event → Event
  | Event.Deposit _ _ _ dest => Event.Withdraw wl dest amount
  | e => e

/-- Whether an effect is a deposit through the layer-1 provider. -/
def Event.isDeposit : Event → Bool
  | Event.Deposit _ _ _ _ => true
  | _ => false

/-- Whether an effect is a transfer through the wallet. -/
def Event.isTransfer : Event → Bool
  | Event.Transfer _ _ _ => true
  | _ => false

/-- Whether an effect is a withdrawal through the wallet. -/
def Event.isWithdraw : Event → Bool
  | Event.Withdraw _ _ _ => true
  | _ => false

/-- Whether an effect is one that only the three operations produce: a balance query,
a submission, a receipt lookup, a sleep or a printed line. -/
def Event.ofOperation : Event → Bool
  | Event.GetBalanceOf _ _ _ _ => true
  | Event.Deposit _ _ _ _ => true
  | Event.Transfer _ _ _ => true
  | Event.Withdraw _ _ _ => true
  | Event.GetTransactionReceipt _ _ => true
  | Event.Sleep _ => true
  | Event.Println _ => true
  | Event.Printf _ _ => true
  | _ => false

/-! ## Mocks used to run the program on concrete inputs -/

/-- A mock in which every call succeeds.  Its state counts the stateful calls made so
far, and the balance it reports is a thousand times that count. -/
def okEnv : Env Nat where
  ReadFile := fun _ w => (([123, 125], none), w + 1)
  Unmarshal := fun _ _ => (⟨"0x01", "http://mock-l2", "http://mock-l1", 270⟩, none)
  Decode := fun _ => ([1], none)
  NewEthSignerFromRawPrivateKey := fun _ _ w => ((some ⟨1⟩, none), w + 1)
  NewDefaultProvider := fun _ w => ((some ⟨2⟩, none), w + 1)
  NewWallet := fun _ _ w => ((some ⟨3⟩, none), w + 1)
  Dial := fun _ w => ((some ⟨4⟩, none), w + 1)
  CreateEthereumProvider := fun _ _ w => ((some ⟨5⟩, none), w + 1)
  HexToAddress := fun _ => ⟨7⟩
  GetAddress := fun _ => ⟨8⟩
  GetBalanceOf := fun _ _ _ _ w => ((some (1000 * (w : Int)), none), w + 1)
  Deposit := fun _ _ _ _ w => ((some ⟨⟨9⟩⟩, none), w + 1)
  Transfer := fun _ _ _ w => ((⟨10⟩, none), w + 1)
  Withdraw := fun _ _ _ w => ((⟨11⟩, none), w + 1)
  GetTransactionReceipt := fun _ _ w => ((some ⟨some ⟨7⟩, ⟨0⟩, some 12, some 13⟩, none), w + 1)

/-- The configuration of the end-to-end scenario. -/
def demoConf : Config := ⟨"0x01", "http://mock-l2", "http://mock-l1", 270⟩

/-- An instance with every reference set, as `newInstance` leaves it over `okEnv`. -/
def demoIns : Instance := ⟨some ⟨1⟩, some ⟨3⟩, some ⟨4⟩, some ⟨2⟩, some ⟨5⟩⟩

/-- A mock whose receipt lookup finds nothing and reports no error. -/
def nilReceiptEnv : Env Nat :=
  { okEnv with GetTransactionReceipt := fun _ _ w => ((none, none), w + 1) }

/-- A mock whose receipt lookup fails: no receipt and an error. -/
def receiptErrEnv : Env Nat :=
  { okEnv with GetTransactionReceipt := fun _ _ w => ((none, some ⟨"not found"⟩), w + 1) }

/-- A mock whose balance query always fails: no balance and an error. -/
def balanceErrEnv : Env Nat :=
  { okEnv with
    GetBalanceOf := fun _ _ _ _ w => ((none, some ⟨"rpc: balance unavailable"⟩), w + 1) }

/-- A mock in which each of the three submission calls fails. -/
def submitFailEnv : Env Nat :=
  { okEnv with
    Deposit := fun _ _ _ _ w => ((none, some ⟨"insufficient funds"⟩), w + 1)
    Transfer := fun _ _ _ w => ((⟨0⟩, some ⟨"insufficient funds"⟩), w + 1)
    Withdraw := fun _ _ _ w => ((⟨0⟩, some ⟨"insufficient funds"⟩), w + 1) }

/-- A mock in which `config.json` cannot be read. -/
def noFileEnv : Env Nat :=
  { okEnv with
    ReadFile := fun _ w => (([], some ⟨"open config.json: no such file or directory"⟩), w + 1) }

/-- The text of the `config.json` of the end-to-end scenario. -/
def configText : String :=
  "\x7b\"account_pk\": \"0x01\", \"zk_url\": \"http://mock-l2\", \"eth_url\": \"http://mock-l1\", \"zk_chain_id\": 270\x7d"

/-- The bytes of `configText` (the text is ASCII). -/
def configBytes : Bytes := configText.data.map Char.toNat

/-- The object `configText` denotes. -/
def configMembers : List (String × JVal) :=
  [("account_pk", JVal.str "0x01"), ("zk_url", JVal.str "http://mock-l2"),
    ("eth_url", JVal.str "http://mock-l1"), ("zk_chain_id", JVal.num 270)]

/-- A mock of the library parts that knows one text, `configText`, and reports a syntax
error for any other. -/
def demoJson : Json where
  parse := fun raw =>
    if raw = configBytes then Except.ok (JDoc.object configMembers)
    else Except.error ⟨"invalid character 'x' looking for beginning of value"⟩
  typeError := fun key _ => ⟨"json: cannot unmarshal into Go struct field Config." ++ key⟩

/-- A mock in which `config.json` holds `configText`. -/
def configFileEnv : Env Nat :=
  { okEnv with ReadFile := fun _ w => ((configBytes, none), w + 1) }

/-- A mock in which `config.json` holds the single character `x`, which is not JSON. -/
def badJsonEnv : Env Nat :=
  { okEnv with ReadFile := fun _ w => (([120], none), w + 1) }

/-- A mock whose hex decoder rejects every input. -/
def badHexEnv : Env Nat := { okEnv with Decode := fun _ => ([], some ⟨"invalid hex string"⟩) }

/-- A mock in which dialing the layer-1 endpoint fails. -/
def dialFailEnv : Env Nat :=
  { okEnv with Dial := fun _ w => ((none, some ⟨"dial tcp: connection refused"⟩), w + 1) }

/-! ## Unfolding the sequencing -/

section Unfold

variable {α β ρ : Type}

@[simp] theorem Go.bind_run (x : Go σ α) (f : α → Go σ β) (s : St σ) :
    (x >>= f) s = Go.andThen x f s := rfl

@[simp] theorem Go.pure_run (a : α) (s : St σ) : (pure a : Go σ α) s = (Outcome.ret a, s) := rfl

@[simp] theorem Go.ret_run (a : α) (s : St σ) : Go.ret a s = (Outcome.ret a, s) := rfl

@[simp] theorem Go.panic_run (p : Panic) (s : St σ) :
    (Go.panic p : Go σ α) s = (Outcome.panic p, s) := rfl

@[simp] theorem Go.emit_run (e : Event) (s : St σ) :
    Go.emit e s = (Outcome.ret (), { s with out := s.out ++ [e] }) := rfl

@[simp] theorem Go.call_run (e : Event) (f : σ → ρ × σ) (s : St σ) :
    Go.call e f s
      = (Outcome.ret (f s.world).1, { s with world := (f s.world).2, out := s.out ++ [e] }) :=
  rfl

@[simp] theorem Go.callPure_run (e : Event) (r : ρ) (s : St σ) :
    Go.callPure e r s = (Outcome.ret r, { s with out := s.out ++ [e] }) := rfl

@[simp] theorem Go.deref_some (a : α) (s : St σ) :
    Go.deref (some a) s = (Outcome.ret a, s) := rfl

@[simp] theorem Go.deref_none (s : St σ) :
    (Go.deref (none : Option α)) s = (Outcome.panic Panic.nilDeref, s) := rfl

@[simp] theorem Go.getConf_run (s : St σ) :
    (Go.getConf : Go σ Config) s = (Outcome.ret s.conf, s) := rfl

@[simp] theorem Go.setConf_run (c : Config) (s : St σ) :
    Go.setConf c s = (Outcome.ret (), { s with conf := c }) := rfl

@[simp] theorem Go.andThen_ret (x : Go σ α) (f : α → Go σ β) (s s1 : St σ) (a : α)
    (h : x s = (Outcome.ret a, s1)) : Go.andThen x f s = f a s1 := by
  simp [Go.andThen, h]

end Unfold

/-! ## newInstance -/

/-- C1: when the hex decoder rejects `account_pk`, `newInstance` returns a non-nil error
(the decoder's), and the only call it has made is the decode itself: no signer, layer-2
provider or wallet construction, no `rpc.Dial`, no `CreateEthereumProvider`; the mock
state is untouched. -/
theorem newInstance_invalid_hex (env : Env σ) (s : St σ)
    (h : (env.Decode s.conf.AccountPk).2 ≠ none) :
    ∃ err : Err, (env.Decode s.conf.AccountPk).2 = some err ∧
      newInstance env s
        = (Outcome.ret (({} : Instance), some err),
            { s with out := s.out ++ [Event.Decode s.conf.AccountPk] }) := by
  obtain ⟨err, herr⟩ := Option.ne_none_iff_exists'.mp h
  refine ⟨err, herr, ?_⟩
  simp [newInstance, Go.andThen, herr]

/-- The rejected key `0xzz`: `newInstance` returns the decoder's error after the decode alone. -/
theorem newInstance_invalid_hex_witness :
    (badHexEnv.Decode (St.mk 0 ⟨"0xzz", "http://mock-l2", "http://mock-l1", 270⟩ []).conf.AccountPk).2
        ≠ none ∧
      ∃ err : Err,
        (badHexEnv.Decode
            (St.mk 0 ⟨"0xzz", "http://mock-l2", "http://mock-l1", 270⟩ []).conf.AccountPk).2
          = some err ∧
        newInstance badHexEnv (St.mk 0 ⟨"0xzz", "http://mock-l2", "http://mock-l1", 270⟩ [])
          = (Outcome.ret (({} : Instance), some err),
              { (St.mk 0 ⟨"0xzz", "http://mock-l2", "http://mock-l1", 270⟩ [] : St Nat) with
                out := (St.mk 0 ⟨"0xzz", "http://mock-l2", "http://mock-l1", 270⟩ [] : St Nat).out
                  ++ [Event.Decode
                    (St.mk 0 ⟨"0xzz", "http://mock-l2", "http://mock-l1", 270⟩ [] :
                      St Nat).conf.AccountPk] }) :=
  ⟨by simp [badHexEnv],
    newInstance_invalid_hex badHexEnv (St.mk 0 ⟨"0xzz", "http://mock-l2", "http://mock-l1", 270⟩ [])
      (by simp [badHexEnv])⟩

/-- C2: `newInstance` is fail-fast over its six steps (hex decode, signer, layer-2
provider, wallet, layer-1 dial, layer-1 provider).  For each step k: when the steps
before it returned a nil error and step k returns the error `e`, `newInstance` returns
exactly `e`, and the trace ends with the call of step k, so no later step is invoked.
(The instance returned alongside holds what the steps run so far have stored.) -/
theorem newInstance_fail_fast (env : Env σ) (s : St σ) :
    (∀ pk e, env.Decode s.conf.AccountPk = (pk, some e) →
      newInstance env s
        = (Outcome.ret ({}, some e),
            ⟨s.world, s.conf, s.out ++ [Event.Decode s.conf.AccountPk]⟩)) ∧
    (∀ pk sg e w1, env.Decode s.conf.AccountPk = (pk, none) →
      env.NewEthSignerFromRawPrivateKey pk s.conf.ZkChainId s.world = ((sg, some e), w1) →
      newInstance env s
        = (Outcome.ret ({ signer := sg }, some e),
            ⟨w1, s.conf, s.out ++ [Event.Decode s.conf.AccountPk,
              Event.NewEthSignerFromRawPrivateKey pk s.conf.ZkChainId]⟩)) ∧
    (∀ pk sg zp e w1 w2, env.Decode s.conf.AccountPk = (pk, none) →
      env.NewEthSignerFromRawPrivateKey pk s.conf.ZkChainId s.world = ((sg, none), w1) →
      env.NewDefaultProvider s.conf.ZkUrl w1 = ((zp, some e), w2) →
      newInstance env s
        = (Outcome.ret ({ signer := sg, zkProvider := zp }, some e),
            ⟨w2, s.conf, s.out ++ [Event.Decode s.conf.AccountPk,
              Event.NewEthSignerFromRawPrivateKey pk s.conf.ZkChainId,
              Event.NewDefaultProvider s.conf.ZkUrl]⟩)) ∧
    (∀ pk sg zp wl e w1 w2 w3, env.Decode s.conf.AccountPk = (pk, none) →
      env.NewEthSignerFromRawPrivateKey pk s.conf.ZkChainId s.world = ((sg, none), w1) →
      env.NewDefaultProvider s.conf.ZkUrl w1 = ((zp, none), w2) →
      env.NewWallet sg zp w2 = ((wl, some e), w3) →
      newInstance env s
        = (Outcome.ret ({ signer := sg, zkProvider := zp, wallet := wl }, some e),
            ⟨w3, s.conf, s.out ++ [Event.Decode s.conf.AccountPk,
              Event.NewEthSignerFromRawPrivateKey pk s.conf.ZkChainId,
              Event.NewDefaultProvider s.conf.ZkUrl,
              Event.NewWallet sg zp]⟩)) ∧
    (∀ pk sg zp wl cl e w1 w2 w3 w4, env.Decode s.conf.AccountPk = (pk, none) →
      env.NewEthSignerFromRawPrivateKey pk s.conf.ZkChainId s.world = ((sg, none), w1) →
      env.NewDefaultProvider s.conf.ZkUrl w1 = ((zp, none), w2) →
      env.NewWallet sg zp w2 = ((wl, none), w3) →
      env.Dial s.conf.EthUrl w3 = ((cl, some e), w4) →
      newInstance env s
        = (Outcome.ret ({ signer := sg, zkProvider := zp, wallet := wl, geth := cl }, some e),
            ⟨w4, s.conf, s.out ++ [Event.Decode s.conf.AccountPk,
              Event.NewEthSignerFromRawPrivateKey pk s.conf.ZkChainId,
              Event.NewDefaultProvider s.conf.ZkUrl,
              Event.NewWallet sg zp,
              Event.Dial s.conf.EthUrl]⟩)) ∧
    (∀ pk sg zp wl cl ep e w1 w2 w3 w4 w5, env.Decode s.conf.AccountPk = (pk, none) →
      env.NewEthSignerFromRawPrivateKey pk s.conf.ZkChainId s.world = ((sg, none), w1) →
      env.NewDefaultProvider s.conf.ZkUrl w1 = ((zp, none), w2) →
      env.NewWallet sg zp w2 = ((some wl, none), w3) →
      env.Dial s.conf.EthUrl w3 = ((cl, none), w4) →
      env.CreateEthereumProvider wl cl w4 = ((ep, some e), w5) →
      newInstance env s
        = (Outcome.ret
            ({ signer := sg, zkProvider := zp, wallet := some wl, geth := cl,
               ethProvider := ep }, some e),
            ⟨w5, s.conf, s.out ++ [Event.Decode s.conf.AccountPk,
              Event.NewEthSignerFromRawPrivateKey pk s.conf.ZkChainId,
              Event.NewDefaultProvider s.conf.ZkUrl,
              Event.NewWallet sg zp,
              Event.Dial s.conf.EthUrl,
              Event.CreateEthereumProvider wl cl]⟩)) := by
  refine ⟨?_, ?_, ?_, ?_, ?_, ?_⟩
  · intro pk e h0
    simp [newInstance, Go.andThen, h0]
  · intro pk sg e w1 h0 h1
    simp [newInstance, Go.andThen, h0, h1]
  · intro pk sg zp e w1 w2 h0 h1 h2
    simp [newInstance, Go.andThen, h0, h1, h2]
  · intro pk sg zp wl e w1 w2 w3 h0 h1 h2 h3
    simp [newInstance, Go.andThen, h0, h1, h2, h3]
  · intro pk sg zp wl cl e w1 w2 w3 w4 h0 h1 h2 h3 h4
    simp [newInstance, Go.andThen, h0, h1, h2, h3, h4]
  · intro pk sg zp wl cl ep e w1 w2 w3 w4 w5 h0 h1 h2 h3 h4 h5
    simp [newInstance, Go.andThen, h0, h1, h2, h3, h4, h5]

/-- C3: when all six construction steps succeed (each returns its object and a nil
error), `newInstance` returns a nil error and an instance whose five references are set
to exactly the objects returned: the signer built from the decoded key bytes and
`zk_chain_id`, the layer-2 provider from `zk_url`, the wallet from that signer and that
provider, the RPC client from `eth_url`, and the layer-1 provider from that wallet and
that client. -/
theorem newInstance_success (env : Env σ) (s : St σ) (pk : Bytes) (sg : Signer)
    (zp : Provider) (wl : Wallet) (cl : Client) (ep : EthProvider) (w1 w2 w3 w4 w5 : σ)
    (h0 : env.Decode s.conf.AccountPk = (pk, none))
    (h1 : env.NewEthSignerFromRawPrivateKey pk s.conf.ZkChainId s.world = ((some sg, none), w1))
    (h2 : env.NewDefaultProvider s.conf.ZkUrl w1 = ((some zp, none), w2))
    (h3 : env.NewWallet (some sg) (some zp) w2 = ((some wl, none), w3))
    (h4 : env.Dial s.conf.EthUrl w3 = ((some cl, none), w4))
    (h5 : env.CreateEthereumProvider wl (some cl) w4 = ((some ep, none), w5)) :
    newInstance env s
      = (Outcome.ret
          ({ signer := some sg, wallet := some wl, geth := some cl, zkProvider := some zp,
             ethProvider := some ep }, none),
          ⟨w5, s.conf, s.out ++ [Event.Decode s.conf.AccountPk,
            Event.NewEthSignerFromRawPrivateKey pk s.conf.ZkChainId,
            Event.NewDefaultProvider s.conf.ZkUrl,
            Event.NewWallet (some sg) (some zp),
            Event.Dial s.conf.EthUrl,
            Event.CreateEthereumProvider wl (some cl)]⟩) := by
  simp [newInstance, Go.andThen, h0, h1, h2, h3, h4, h5]

/-- A failing dial: the first four steps ran, the dial's error is returned, the sixth step is absent. -/
theorem newInstance_fail_fast_witness :
    dialFailEnv.Decode (St.mk 0 demoConf [] : St Nat).conf.AccountPk = ([1], none) ∧
      dialFailEnv.Dial (St.mk 0 demoConf [] : St Nat).conf.EthUrl 3
        = ((none, some ⟨"dial tcp: connection refused"⟩), 4) ∧
      newInstance dialFailEnv (St.mk 0 demoConf [])
        = (Outcome.ret
            ({ signer := some ⟨1⟩, zkProvider := some ⟨2⟩, wallet := some ⟨3⟩, geth := none },
              some ⟨"dial tcp: connection refused"⟩),
            ⟨4, demoConf, [Event.Decode "0x01",
              Event.NewEthSignerFromRawPrivateKey [1] 270,
              Event.NewDefaultProvider "http://mock-l2",
              Event.NewWallet (some ⟨1⟩) (some ⟨2⟩),
              Event.Dial "http://mock-l1"]⟩) :=
  ⟨rfl, rfl,
    (newInstance_fail_fast dialFailEnv (St.mk 0 demoConf [])).2.2.2.2.1
      [1] (some ⟨1⟩) (some ⟨2⟩) (some ⟨3⟩) none ⟨"dial tcp: connection refused"⟩ 1 2 3 4
      rfl rfl rfl rfl rfl⟩

/-- The end-to-end configuration over the all-succeeding mock: all five references are set. -/
theorem newInstance_success_witness :
    okEnv.Decode (St.mk 0 demoConf [] : St Nat).conf.AccountPk = ([1], none) ∧
      okEnv.CreateEthereumProvider ⟨3⟩ (some ⟨4⟩) 4 = ((some ⟨5⟩, none), 5) ∧
      newInstance okEnv (St.mk 0 demoConf [])
        = (Outcome.ret (demoIns, none),
            ⟨5, demoConf, [Event.Decode "0x01",
              Event.NewEthSignerFromRawPrivateKey [1] 270,
              Event.NewDefaultProvider "http://mock-l2",
              Event.NewWallet (some ⟨1⟩) (some ⟨2⟩),
              Event.Dial "http://mock-l1",
              Event.CreateEthereumProvider ⟨3⟩ (some ⟨4⟩)]⟩) :=
  ⟨rfl, rfl,
    newInstance_success okEnv (St.mk 0 demoConf []) [1] ⟨1⟩ ⟨2⟩ ⟨3⟩ ⟨4⟩ ⟨5⟩ 1 2 3 4 5
      rfl rfl rfl rfl rfl rfl⟩

/-! ## Deposit -/

/-- C9: `Deposit`, on an instance whose signer, wallet and layer-1 provider references
are set, first (after the banner) queries the native-asset balance of the signer's own
address, then submits one deposit through the layer-1 provider with that address as
destination and the amount 1000000000000000.  If the submission succeeds it prints the
transaction hash, sleeps 5 seconds, queries the balance of the same address again and
prints the before and after values.  If the submission fails it panics with the error
right after the submission: no sleep, no second balance query, no before/after line. -/
theorem Deposit_order (env : Env σ) (ins : Instance) (s : St σ) (sg : Signer) (wl : Wallet)
    (ep : EthProvider) (hs : ins.signer = some sg) (hw : ins.wallet = some wl)
    (hp : ins.ethProvider = some ep) :
    (∀ b1 e1 w1 tx w2 b2 e2 w3,
      env.GetBalanceOf wl (env.GetAddress sg) Token.CreateETH BlockNumber.BlockNumberCommitted
          s.world = ((b1, e1), w1) →
      env.Deposit ep Token.CreateETH 1000000000000000 (env.GetAddress sg) w1
          = ((some tx, none), w2) →
      env.GetBalanceOf wl (env.GetAddress sg) Token.CreateETH BlockNumber.BlockNumberCommitted
          w2 = ((b2, e2), w3) →
      Deposit env ins s
        = (Outcome.ret (),
            ⟨w3, s.conf, s.out ++ splitTrace "deposit"
                "signer deposit l1 ether to l2, and the asset will be locked in contract of diamondProxy"
              ++ [Event.GetBalanceOf wl (env.GetAddress sg) Token.CreateETH
                    BlockNumber.BlockNumberCommitted,
                  Event.Deposit ep Token.CreateETH 1000000000000000 (env.GetAddress sg),
                  Event.Printf "deposit success %s\r\n" [Val.hashHex tx.Hash],
                  Event.Sleep 5,
                  Event.GetBalanceOf wl (env.GetAddress sg) Token.CreateETH
                    BlockNumber.BlockNumberCommitted,
                  Event.Printf "before deposit amount %s, after deposit amount %s\r\n"
                    [Val.bigString b1, Val.bigString b2]]⟩)) ∧
    (∀ b1 e1 w1 tx err w2,
      env.GetBalanceOf wl (env.GetAddress sg) Token.CreateETH BlockNumber.BlockNumberCommitted
          s.world = ((b1, e1), w1) →
      env.Deposit ep Token.CreateETH 1000000000000000 (env.GetAddress sg) w1
          = ((tx, some err), w2) →
      Deposit env ins s
        = (Outcome.panic (Panic.msg ("deposit failed, err: " ++ err.Error)),
            ⟨w2, s.conf, s.out ++ splitTrace "deposit"
                "signer deposit l1 ether to l2, and the asset will be locked in contract of diamondProxy"
              ++ [Event.GetBalanceOf wl (env.GetAddress sg) Token.CreateETH
                    BlockNumber.BlockNumberCommitted,
                  Event.Deposit ep Token.CreateETH 1000000000000000 (env.GetAddress sg)]⟩)) := by
  refine ⟨?_, ?_⟩
  · intro b1 e1 w1 tx w2 b2 e2 w3 h1 h2 h3
    simp [Deposit, split, splitTrace, Go.andThen, hs, hw, hp, h1, h2, h3]
  · intro b1 e1 w1 tx err w2 h1 h2
    simp [Deposit, split, splitTrace, Go.andThen, hs, hw, hp, h1, h2]

/-- A successful deposit over the all-succeeding mock, with the balances 0 before and 2000 after. -/
theorem Deposit_order_witness :
    demoIns.signer = some ⟨1⟩ ∧ demoIns.wallet = some ⟨3⟩ ∧ demoIns.ethProvider = some ⟨5⟩ ∧
      okEnv.Deposit ⟨5⟩ Token.CreateETH 1000000000000000 (okEnv.GetAddress ⟨1⟩) 1
        = ((some ⟨⟨9⟩⟩, none), 2) ∧
      Deposit okEnv demoIns (St.mk 0 demoConf [])
        = (Outcome.ret (),
            ⟨3, demoConf, [] ++ splitTrace "deposit"
                "signer deposit l1 ether to l2, and the asset will be locked in contract of diamondProxy"
              ++ [Event.GetBalanceOf ⟨3⟩ (okEnv.GetAddress ⟨1⟩) Token.CreateETH
                    BlockNumber.BlockNumberCommitted,
                  Event.Deposit ⟨5⟩ Token.CreateETH 1000000000000000 (okEnv.GetAddress ⟨1⟩),
                  Event.Printf "deposit success %s\r\n" [Val.hashHex ⟨9⟩],
                  Event.Sleep 5,
                  Event.GetBalanceOf ⟨3⟩ (okEnv.GetAddress ⟨1⟩) Token.CreateETH
                    BlockNumber.BlockNumberCommitted,
                  Event.Printf "before deposit amount %s, after deposit amount %s\r\n"
                    [Val.bigString (some 0), Val.bigString (some 2000)]]⟩) :=
  ⟨rfl, rfl, rfl, rfl,
    (Deposit_order okEnv demoIns (St.mk 0 demoConf []) ⟨1⟩ ⟨3⟩ ⟨5⟩ rfl rfl rfl).1
      (some 0) none 1 ⟨⟨9⟩⟩ 2 (some 2000) none 3 rfl rfl rfl⟩

/-! ## Transfer -/

/-- C4: on an instance whose wallet and layer-2 provider references are set, when the
transfer submission succeeds with hash `h` and the receipt lookup returns a fully
populated receipt, `Transfer` issues exactly one wallet transfer, to the hard-coded
address `0x5Ed9a6713962f04DA057e6A949394e002855DF72` with amount 1000000000000000,
later followed by exactly one receipt lookup on the layer-2 provider for that same `h`,
and its last effect is one printed line holding the balance read before the transfer
and the balance read after it. -/
theorem Transfer_success (env : Env σ) (ins : Instance) (s : St σ) (wl : Wallet)
    (zp : Provider) (hw : ins.wallet = some wl) (hz : ins.zkProvider = some zp)
    (b1 : Option Int) (e1 : Option Err) (w1 : σ) (h : Hash) (w2 : σ)
    (rto ca : Address) (bn bi : Int) (re : Option Err) (w3 : σ)
    (b2 : Option Int) (e2 : Option Err) (w4 : σ)
    (h1 : env.GetBalanceOf wl (env.HexToAddress "0x5Ed9a6713962f04DA057e6A949394e002855DF72")
        Token.CreateETH BlockNumber.BlockNumberCommitted s.world = ((b1, e1), w1))
    (h2 : env.Transfer wl (env.HexToAddress "0x5Ed9a6713962f04DA057e6A949394e002855DF72")
        1000000000000000 w1 = ((h, none), w2))
    (h3 : env.GetTransactionReceipt zp h w2 = ((some ⟨some rto, ca, some bn, some bi⟩, re), w3))
    (h4 : env.GetBalanceOf wl (env.HexToAddress "0x5Ed9a6713962f04DA057e6A949394e002855DF72")
        Token.CreateETH BlockNumber.BlockNumberCommitted w3 = ((b2, e2), w4)) :
    Transfer env ins s
      = (Outcome.ret (),
          ⟨w4, s.conf, s.out ++ splitTrace "transfer" "signer transfer mirror asset `ether` on l2"
            ++ [Event.GetBalanceOf wl
                  (env.HexToAddress "0x5Ed9a6713962f04DA057e6A949394e002855DF72")
                  Token.CreateETH BlockNumber.BlockNumberCommitted,
                Event.Transfer wl
                  (env.HexToAddress "0x5Ed9a6713962f04DA057e6A949394e002855DF72")
                  1000000000000000,
                Event.Printf "transfer success %s\r\n" [Val.hashHex h],
                Event.Sleep 5,
                Event.GetTransactionReceipt zp h,
                Event.Printf
                  "receipt.to %s, dest contract address is %s, L1BatchNumber %s, L1BatchTransactionIndex %s \r\n"
                  [Val.addrHex rto, Val.addr ca, Val.hexBigString bn, Val.hexBigString bi],
                Event.GetBalanceOf wl
                  (env.HexToAddress "0x5Ed9a6713962f04DA057e6A949394e002855DF72")
                  Token.CreateETH BlockNumber.BlockNumberCommitted,
                Event.Printf "before transfer amount %s, after transfer amount %s\r\n"
                  [Val.bigString b1, Val.bigString b2]]⟩) := by
  simp [Transfer, split, splitTrace, Go.andThen, hw, hz, h1, h2, h3, h4]

/-- A successful transfer over the all-succeeding mock, with the balances 0 before and 3000 after. -/
theorem Transfer_success_witness :
    demoIns.wallet = some ⟨3⟩ ∧ demoIns.zkProvider = some ⟨2⟩ ∧
      okEnv.Transfer ⟨3⟩ (okEnv.HexToAddress "0x5Ed9a6713962f04DA057e6A949394e002855DF72")
        1000000000000000 1 = ((⟨10⟩, none), 2) ∧
      okEnv.GetTransactionReceipt ⟨2⟩ ⟨10⟩ 2
        = ((some ⟨some ⟨7⟩, ⟨0⟩, some 12, some 13⟩, none), 3) ∧
      Transfer okEnv demoIns (St.mk 0 demoConf [])
        = (Outcome.ret (),
            ⟨4, demoConf, [] ++ splitTrace "transfer" "signer transfer mirror asset `ether` on l2"
              ++ [Event.GetBalanceOf ⟨3⟩
                    (okEnv.HexToAddress "0x5Ed9a6713962f04DA057e6A949394e002855DF72")
                    Token.CreateETH BlockNumber.BlockNumberCommitted,
                  Event.Transfer ⟨3⟩
                    (okEnv.HexToAddress "0x5Ed9a6713962f04DA057e6A949394e002855DF72")
                    1000000000000000,
                  Event.Printf "transfer success %s\r\n" [Val.hashHex ⟨10⟩],
                  Event.Sleep 5,
                  Event.GetTransactionReceipt ⟨2⟩ ⟨10⟩,
                  Event.Printf
                    "receipt.to %s, dest contract address is %s, L1BatchNumber %s, L1BatchTransactionIndex %s \r\n"
                    [Val.addrHex ⟨7⟩, Val.addr ⟨0⟩, Val.hexBigString 12, Val.hexBigString 13],
                  Event.GetBalanceOf ⟨3⟩
                    (okEnv.HexToAddress "0x5Ed9a6713962f04DA057e6A949394e002855DF72")
                    Token.CreateETH BlockNumber.BlockNumberCommitted,
                  Event.Printf "before transfer amount %s, after transfer amount %s\r\n"
                    [Val.bigString (some 0), Val.bigString (some 3000)]]⟩) :=
  ⟨rfl, rfl, rfl, rfl,
    Transfer_success okEnv demoIns (St.mk 0 demoConf []) ⟨3⟩ ⟨2⟩ rfl rfl
      (some 0) none 1 ⟨10⟩ 2 ⟨7⟩ ⟨0⟩ 12 13 none 3 (some 3000) none 4 rfl rfl rfl rfl⟩

/-- C10: the receipt printing of `Transfer` is safe when the receipt is fully
populated and unsafe when there is none.  (1) Whenever the submission succeeds and the
lookup returns a receipt whose `To`, `L1BatchNumber` and `L1BatchTxIndex` are non-nil,
`Transfer` returns normally.  (2) Whenever the submission succeeds and the lookup
returns no receipt, with or without an error, `Transfer` panics on the nil dereference;
the trace then ends with the receipt lookup, after the submitted transfer, and holds no
second balance query and no before/after line.  (3) Mocks of both kinds exist. -/
theorem Transfer_receipt_safety (env : Env σ) (ins : Instance) (s : St σ) (wl : Wallet)
    (zp : Provider) (hw : ins.wallet = some wl) (hz : ins.zkProvider = some zp) :
    (∀ b1 e1 w1 h w2 rto ca bn bi re w3,
      env.GetBalanceOf wl (env.HexToAddress "0x5Ed9a6713962f04DA057e6A949394e002855DF72")
          Token.CreateETH BlockNumber.BlockNumberCommitted s.world = ((b1, e1), w1) →
      env.Transfer wl (env.HexToAddress "0x5Ed9a6713962f04DA057e6A949394e002855DF72")
          1000000000000000 w1 = ((h, none), w2) →
      env.GetTransactionReceipt zp h w2 = ((some ⟨some rto, ca, some bn, some bi⟩, re), w3) →
      (Transfer env ins s).1 = Outcome.ret ()) ∧
    (∀ b1 e1 w1 h w2 re w3,
      env.GetBalanceOf wl (env.HexToAddress "0x5Ed9a6713962f04DA057e6A949394e002855DF72")
          Token.CreateETH BlockNumber.BlockNumberCommitted s.world = ((b1, e1), w1) →
      env.Transfer wl (env.HexToAddress "0x5Ed9a6713962f04DA057e6A949394e002855DF72")
          1000000000000000 w1 = ((h, none), w2) →
      env.GetTransactionReceipt zp h w2 = ((none, re), w3) →
      Transfer env ins s
        = (Outcome.panic Panic.nilDeref,
            ⟨w3, s.conf, s.out ++ splitTrace "transfer" "signer transfer mirror asset `ether` on l2"
              ++ [Event.GetBalanceOf wl
                    (env.HexToAddress "0x5Ed9a6713962f04DA057e6A949394e002855DF72")
                    Token.CreateETH BlockNumber.BlockNumberCommitted,
                  Event.Transfer wl
                    (env.HexToAddress "0x5Ed9a6713962f04DA057e6A949394e002855DF72")
                    1000000000000000,
                  Event.Printf "transfer success %s\r\n" [Val.hashHex h],
                  Event.Sleep 5,
                  Event.GetTransactionReceipt zp h]⟩)) ∧
    (nilReceiptEnv.Transfer ⟨3⟩
          (nilReceiptEnv.HexToAddress "0x5Ed9a6713962f04DA057e6A949394e002855DF72")
          1000000000000000 1 = ((⟨10⟩, none), 2) ∧
      nilReceiptEnv.GetTransactionReceipt ⟨2⟩ ⟨10⟩ 2 = ((none, none), 3) ∧
      (Transfer nilReceiptEnv demoIns (St.mk 0 demoConf [])).1 = Outcome.panic Panic.nilDeref) ∧
    (receiptErrEnv.Transfer ⟨3⟩
          (receiptErrEnv.HexToAddress "0x5Ed9a6713962f04DA057e6A949394e002855DF72")
          1000000000000000 1 = ((⟨10⟩, none), 2) ∧
      receiptErrEnv.GetTransactionReceipt ⟨2⟩ ⟨10⟩ 2 = ((none, some ⟨"not found"⟩), 3) ∧
      (Transfer receiptErrEnv demoIns (St.mk 0 demoConf [])).1
        = Outcome.panic Panic.nilDeref) := by
  refine ⟨?_, ?_, ⟨rfl, rfl, rfl⟩, ⟨rfl, rfl, rfl⟩⟩
  · intro b1 e1 w1 h w2 rto ca bn bi re w3 h1 h2 h3
    simp [Transfer, split, Go.andThen, hw, hz, h1, h2, h3]
  · intro b1 e1 w1 h w2 re w3 h1 h2 h3
    simp [Transfer, split, splitTrace, Go.andThen, hw, hz, h1, h2, h3]

/-- A populated receipt lets the transfer complete; a missing one stops it at the lookup. -/
theorem Transfer_receipt_safety_witness :
    demoIns.wallet = some ⟨3⟩ ∧ demoIns.zkProvider = some ⟨2⟩ ∧
      okEnv.GetTransactionReceipt ⟨2⟩ ⟨10⟩ 2
        = ((some ⟨some ⟨7⟩, ⟨0⟩, some 12, some 13⟩, none), 3) ∧
      (Transfer okEnv demoIns (St.mk 0 demoConf [])).1 = Outcome.ret () ∧
      nilReceiptEnv.GetTransactionReceipt ⟨2⟩ ⟨10⟩ 2 = ((none, none), 3) ∧
      Transfer nilReceiptEnv demoIns (St.mk 0 demoConf [])
        = (Outcome.panic Panic.nilDeref,
            ⟨3, demoConf, [] ++ splitTrace "transfer" "signer transfer mirror asset `ether` on l2"
              ++ [Event.GetBalanceOf ⟨3⟩
                    (nilReceiptEnv.HexToAddress "0x5Ed9a6713962f04DA057e6A949394e002855DF72")
                    Token.CreateETH BlockNumber.BlockNumberCommitted,
                  Event.Transfer ⟨3⟩
                    (nilReceiptEnv.HexToAddress "0x5Ed9a6713962f04DA057e6A949394e002855DF72")
                    1000000000000000,
                  Event.Printf "transfer success %s\r\n" [Val.hashHex ⟨10⟩],
                  Event.Sleep 5,
                  Event.GetTransactionReceipt ⟨2⟩ ⟨10⟩]⟩) :=
  ⟨rfl, rfl, rfl,
    (Transfer_receipt_safety okEnv demoIns (St.mk 0 demoConf []) ⟨3⟩ ⟨2⟩ rfl rfl).1
      (some 0) none 1 ⟨10⟩ 2 ⟨7⟩ ⟨0⟩ 12 13 none 3 rfl rfl rfl,
    rfl,
    (Transfer_receipt_safety nilReceiptEnv demoIns (St.mk 0 demoConf []) ⟨3⟩ ⟨2⟩ rfl rfl).2.1
      (some 0) none 1 ⟨10⟩ 2 none 3 rfl rfl rfl⟩

/-! ## Which SDK errors are fatal -/

/-- C5, as stated, fails: over a mock whose balance query returns an error, `Deposit`
makes that failing call twice and still runs to normal completion, printing `<nil>` for
both balances. -/
theorem Deposit_balance_error_not_fatal :
    (balanceErrEnv.GetBalanceOf ⟨3⟩ (balanceErrEnv.GetAddress ⟨1⟩) Token.CreateETH
        BlockNumber.BlockNumberCommitted 0).1.2 = some ⟨"rpc: balance unavailable"⟩ ∧
      Deposit balanceErrEnv demoIns (St.mk 0 demoConf [])
        = (Outcome.ret (),
            ⟨3, demoConf, splitTrace "deposit"
                "signer deposit l1 ether to l2, and the asset will be locked in contract of diamondProxy"
              ++ [Event.GetBalanceOf ⟨3⟩ ⟨8⟩ Token.CreateETH BlockNumber.BlockNumberCommitted,
                  Event.Deposit ⟨5⟩ Token.CreateETH 1000000000000000 ⟨8⟩,
                  Event.Printf "deposit success %s\r\n" [Val.hashHex ⟨9⟩],
                  Event.Sleep 5,
                  Event.GetBalanceOf ⟨3⟩ ⟨8⟩ Token.CreateETH BlockNumber.BlockNumberCommitted,
                  Event.Printf "before deposit amount %s, after deposit amount %s\r\n"
                    [Val.bigString none, Val.bigString none]]⟩) :=
  ⟨rfl, rfl⟩

/-- C5, amended: in each of `Deposit`, `Transfer` and `Withdrawal` an error returned by
the submission call (`Deposit`, `Transfer`, `Withdraw`) is fatal, whatever the balance
query before it returned: the operation panics with that error and does not complete.
A receipt lookup that fails returning no receipt is fatal too (nil dereference).  An
error returned by a balance query is discarded: when the submission succeeds, `Deposit`
and `Withdrawal` run to normal completion whatever the two balance queries return. -/
theorem submission_error_fatal (env : Env σ) (ins : Instance) (s : St σ) (sg : Signer)
    (wl : Wallet) (zp : Provider) (ep : EthProvider) (hs : ins.signer = some sg)
    (hw : ins.wallet = some wl) (hz : ins.zkProvider = some zp)
    (hp : ins.ethProvider = some ep) :
    (∀ tx err,
      (env.Deposit ep Token.CreateETH 1000000000000000 (env.GetAddress sg)
          (env.GetBalanceOf wl (env.GetAddress sg) Token.CreateETH
            BlockNumber.BlockNumberCommitted s.world).2).1 = (tx, some err) →
      (Deposit env ins s).1 = Outcome.panic (Panic.msg ("deposit failed, err: " ++ err.Error))) ∧
    (∀ h err,
      (env.Transfer wl (env.HexToAddress "0x5Ed9a6713962f04DA057e6A949394e002855DF72")
          1000000000000000
          (env.GetBalanceOf wl (env.HexToAddress "0x5Ed9a6713962f04DA057e6A949394e002855DF72")
            Token.CreateETH BlockNumber.BlockNumberCommitted s.world).2).1 = (h, some err) →
      (Transfer env ins s).1
        = Outcome.panic (Panic.msg ("transfer failed, err: " ++ err.Error))) ∧
    (∀ h err,
      (env.Withdraw wl (env.GetAddress sg) 1000000000000
          (env.GetBalanceOf wl (env.GetAddress sg) Token.CreateETH
            BlockNumber.BlockNumberCommitted s.world).2).1 = (h, some err) →
      (Withdrawal env ins s).1
        = Outcome.panic (Panic.msg ("withdrawal failed, err: " ++ err.Error))) ∧
    (∀ h w2 err,
      env.Transfer wl (env.HexToAddress "0x5Ed9a6713962f04DA057e6A949394e002855DF72")
          1000000000000000
          (env.GetBalanceOf wl (env.HexToAddress "0x5Ed9a6713962f04DA057e6A949394e002855DF72")
            Token.CreateETH BlockNumber.BlockNumberCommitted s.world).2 = ((h, none), w2) →
      (env.GetTransactionReceipt zp h w2).1 = (none, some err) →
      (Transfer env ins s).1 = Outcome.panic Panic.nilDeref) ∧
    (∀ tx,
      (env.Deposit ep Token.CreateETH 1000000000000000 (env.GetAddress sg)
          (env.GetBalanceOf wl (env.GetAddress sg) Token.CreateETH
            BlockNumber.BlockNumberCommitted s.world).2).1 = (some tx, none) →
      (Deposit env ins s).1 = Outcome.ret ()) ∧
    (∀ h,
      (env.Withdraw wl (env.GetAddress sg) 1000000000000
          (env.GetBalanceOf wl (env.GetAddress sg) Token.CreateETH
            BlockNumber.BlockNumberCommitted s.world).2).1 = (h, none) →
      (Withdrawal env ins s).1 = Outcome.ret ()) := by
  refine ⟨?_, ?_, ?_, ?_, ?_, ?_⟩
  · intro tx err h1
    simp [Deposit, split, Go.andThen, hs, hw, hp, h1]
  · intro h err h1
    simp [Transfer, split, Go.andThen, hw, h1]
  · intro h err h1
    simp [Withdrawal, split, Go.andThen, hs, hw, h1]
  · intro h w2 err h1 h2
    simp [Transfer, split, Go.andThen, hw, hz, h1, h2]
  · intro tx h1
    simp [Deposit, split, Go.andThen, hs, hw, hp, h1]
  · intro h h1
    simp [Withdrawal, split, Go.andThen, hs, hw, h1]

/-- A rejected withdrawal panics with the error of the submission. -/
theorem submission_error_fatal_witness :
    demoIns.signer = some ⟨1⟩ ∧ demoIns.wallet = some ⟨3⟩ ∧ demoIns.zkProvider = some ⟨2⟩ ∧
      demoIns.ethProvider = some ⟨5⟩ ∧
      (submitFailEnv.Withdraw ⟨3⟩ (submitFailEnv.GetAddress ⟨1⟩) 1000000000000
          (submitFailEnv.GetBalanceOf ⟨3⟩ (submitFailEnv.GetAddress ⟨1⟩) Token.CreateETH
            BlockNumber.BlockNumberCommitted
            (St.mk 0 demoConf [] : St Nat).world).2).1 = (⟨0⟩, some ⟨"insufficient funds"⟩) ∧
      (Withdrawal submitFailEnv demoIns (St.mk 0 demoConf [])).1
        = Outcome.panic (Panic.msg ("withdrawal failed, err: " ++ "insufficient funds")) :=
  ⟨rfl, rfl, rfl, rfl, rfl,
    (submission_error_fatal submitFailEnv demoIns (St.mk 0 demoConf []) ⟨1⟩ ⟨3⟩ ⟨2⟩ ⟨5⟩
      rfl rfl rfl rfl).2.2.1 ⟨0⟩ ⟨"insufficient funds"⟩ rfl⟩

/-! ## Withdrawal against Deposit -/

/-- C7, as stated, fails: over the all-succeeding mock both operations complete, yet the
trace of `Withdrawal` is not the trace of `Deposit` with the deposit call replaced by a
withdrawal of the same amount, even when the printed text is disregarded: `Withdrawal`
submits 1000000000000, `Deposit` submits 1000000000000000. -/
theorem Withdrawal_not_Deposit_shape :
    (Deposit okEnv demoIns (St.mk 0 demoConf [])).1 = Outcome.ret () ∧
      (Withdrawal okEnv demoIns (St.mk 0 demoConf [])).1 = Outcome.ret () ∧
      (Withdrawal okEnv demoIns (St.mk 0 demoConf [])).2.out.map Event.shape
        ≠ ((Deposit okEnv demoIns (St.mk 0 demoConf [])).2.out.map
            (depositAsWithdraw ⟨3⟩)).map Event.shape ∧
      Event.Withdraw ⟨3⟩ ⟨8⟩ 1000000000000
        ∈ (Withdrawal okEnv demoIns (St.mk 0 demoConf [])).2.out ∧
      Event.Deposit ⟨5⟩ Token.CreateETH 1000000000000000 ⟨8⟩
        ∈ (Deposit okEnv demoIns (St.mk 0 demoConf [])).2.out := by
  refine ⟨rfl, rfl, ?_, ?_, ?_⟩
  · simp [Withdrawal, Deposit, split, Go.andThen, okEnv, demoIns, Event.shape,
      depositAsWithdraw]
  · simp [Withdrawal, split, Go.andThen, okEnv, demoIns]
  · simp [Deposit, split, Go.andThen, okEnv, demoIns]

/-- C7, amended: `Withdrawal` has the shape of `Deposit` with two substitutions.  On
an instance whose signer, wallet and layer-1 provider references are set, started in
the same state, and when the two submissions both succeed or both fail, the trace of
`Withdrawal` equals, up to the printed text, the trace of `Deposit` in which the
layer-1 provider's deposit is replaced by the wallet's `Withdraw` to the same
destination (the signer's own address) with the amount 1000000000000 instead of
1000000000000000: the same balance query, one submission, the same 5-second sleep, the
same second balance query, one before/after line.  And `Withdrawal` never calls the
layer-1 provider's `Deposit`, on any instance and in any state. -/
theorem Withdrawal_shape (env : Env σ) (w : σ) (conf : Config) :
    (∀ ins sg wl ep tx h, ins.signer = some sg → ins.wallet = some wl →
      ins.ethProvider = some ep →
      (env.Deposit ep Token.CreateETH 1000000000000000 (env.GetAddress sg)
          (env.GetBalanceOf wl (env.GetAddress sg) Token.CreateETH
            BlockNumber.BlockNumberCommitted w).2).1 = (some tx, none) →
      (env.Withdraw wl (env.GetAddress sg) 1000000000000
          (env.GetBalanceOf wl (env.GetAddress sg) Token.CreateETH
            BlockNumber.BlockNumberCommitted w).2).1 = (h, none) →
      (Withdrawal env ins ⟨w, conf, []⟩).2.out.map Event.shape
        = ((Deposit env ins ⟨w, conf, []⟩).2.out.map
            (depositAsWithdrawOf wl 1000000000000)).map Event.shape) ∧
    (∀ ins sg wl ep tx h e1 e2, ins.signer = some sg → ins.wallet = some wl →
      ins.ethProvider = some ep →
      (env.Deposit ep Token.CreateETH 1000000000000000 (env.GetAddress sg)
          (env.GetBalanceOf wl (env.GetAddress sg) Token.CreateETH
            BlockNumber.BlockNumberCommitted w).2).1 = (tx, some e1) →
      (env.Withdraw wl (env.GetAddress sg) 1000000000000
          (env.GetBalanceOf wl (env.GetAddress sg) Token.CreateETH
            BlockNumber.BlockNumberCommitted w).2).1 = (h, some e2) →
      (Withdrawal env ins ⟨w, conf, []⟩).2.out.map Event.shape
        = ((Deposit env ins ⟨w, conf, []⟩).2.out.map
            (depositAsWithdrawOf wl 1000000000000)).map Event.shape) ∧
    (∀ ins out, (∀ e ∈ out, e.isDeposit = false) →
      ∀ e ∈ (Withdrawal env ins ⟨w, conf, out⟩).2.out, e.isDeposit = false) := by
  refine ⟨?_, ?_, ?_⟩
  · intro ins sg wl ep tx h hs hw hp hD hW
    simp [Withdrawal, Deposit, split, Go.andThen, hs, hw, hp, hD, hW, Event.shape,
      depositAsWithdrawOf]
  · intro ins sg wl ep tx h e1 e2 hs hw hp hD hW
    simp [Withdrawal, Deposit, split, Go.andThen, hs, hw, hp, hD, hW, Event.shape,
      depositAsWithdrawOf]
  · intro ins out hout
    rcases ins with ⟨_ | sg, _ | wl, cl, zp, ep⟩
    · simpa [Withdrawal, split, Go.andThen, Event.isDeposit, or_imp, forall_and] using hout
    · simpa [Withdrawal, split, Go.andThen, Event.isDeposit, or_imp, forall_and] using hout
    · simpa [Withdrawal, split, Go.andThen, Event.isDeposit, or_imp, forall_and] using hout
    · cases hW : (env.Withdraw wl (env.GetAddress sg) 1000000000000
          (env.GetBalanceOf wl (env.GetAddress sg) Token.CreateETH
            BlockNumber.BlockNumberCommitted w).2).1.2 with
      | none =>
        simpa [Withdrawal, split, Go.andThen, hW, Event.isDeposit, or_imp, forall_and]
          using hout
      | some err =>
        simpa [Withdrawal, split, Go.andThen, hW, Event.isDeposit, or_imp, forall_and]
          using hout

/-- Over the all-succeeding mock the two traces agree under the two substitutions. -/
theorem Withdrawal_shape_witness :
    demoIns.signer = some ⟨1⟩ ∧ demoIns.wallet = some ⟨3⟩ ∧ demoIns.ethProvider = some ⟨5⟩ ∧
      (okEnv.Withdraw ⟨3⟩ (okEnv.GetAddress ⟨1⟩) 1000000000000
          (okEnv.GetBalanceOf ⟨3⟩ (okEnv.GetAddress ⟨1⟩) Token.CreateETH
            BlockNumber.BlockNumberCommitted 0).2).1 = (⟨11⟩, none) ∧
      (Withdrawal okEnv demoIns ⟨0, demoConf, []⟩).2.out.map Event.shape
        = ((Deposit okEnv demoIns ⟨0, demoConf, []⟩).2.out.map
            (depositAsWithdrawOf ⟨3⟩ 1000000000000)).map Event.shape :=
  ⟨rfl, rfl, rfl, rfl,
    (Withdrawal_shape okEnv 0 demoConf).1 demoIns ⟨1⟩ ⟨3⟩ ⟨5⟩ ⟨⟨9⟩⟩ ⟨11⟩ rfl rfl rfl rfl rfl⟩

/-! ## main -/

/-- Loading the configuration produces no effect of an operation. -/
theorem initConfig_no_operation (env : Env σ) (s : St σ)
    (h : ∀ e ∈ s.out, e.ofOperation = false) :
    ∀ e ∈ (initConfig env s).2.out, e.ofOperation = false := by
  simp only [initConfig, Go.bind_run, Go.andThen, Go.call_run, Go.callPure_run,
    Go.getConf_run, Go.setConf_run]
  generalize env.ReadFile "config.json" s.world = r
  obtain ⟨⟨raw, _ | e0⟩, w1⟩ := r
  · simp only [Go.bind_run, Go.andThen, Go.call_run, Go.callPure_run,
      Go.getConf_run, Go.setConf_run]
    generalize env.Unmarshal raw s.conf = u
    obtain ⟨c, _ | e1⟩ := u
    · simpa [Event.ofOperation, or_imp, forall_and] using h
    · simpa [Event.ofOperation, or_imp, forall_and] using h
  · simpa [Event.ofOperation, or_imp, forall_and] using h

/-- Building the instance produces no effect of an operation. -/
theorem newInstance_no_operation (env : Env σ) (s : St σ)
    (h : ∀ e ∈ s.out, e.ofOperation = false) :
    ∀ e ∈ (newInstance env s).2.out, e.ofOperation = false := by
  simp only [newInstance, Go.bind_run, Go.andThen, Go.call_run, Go.callPure_run, Go.getConf_run]
  generalize env.Decode s.conf.AccountPk = d
  obtain ⟨pk, _ | e0⟩ := d
  · simp only [Go.bind_run, Go.andThen, Go.call_run]
    generalize env.NewEthSignerFromRawPrivateKey pk s.conf.ZkChainId s.world = r1
    obtain ⟨⟨sg, _ | e1⟩, w1⟩ := r1
    · simp only [Go.bind_run, Go.andThen, Go.call_run]
      generalize env.NewDefaultProvider s.conf.ZkUrl w1 = r2
      obtain ⟨⟨zp, _ | e2⟩, w2⟩ := r2
      · simp only [Go.bind_run, Go.andThen, Go.call_run]
        generalize env.NewWallet sg zp w2 = r3
        obtain ⟨⟨wl, _ | e3⟩, w3⟩ := r3
        · simp only [Go.bind_run, Go.andThen, Go.call_run]
          generalize env.Dial s.conf.EthUrl w3 = r4
          obtain ⟨⟨cl, _ | e4⟩, w4⟩ := r4
          · cases wl with
            | none => simpa [Go.andThen, Event.ofOperation, or_imp, forall_and] using h
            | some wl =>
              simp only [Go.bind_run, Go.andThen, Go.call_run, Go.deref_some]
              generalize env.CreateEthereumProvider wl cl w4 = r5
              obtain ⟨⟨ep, _ | e5⟩, w5⟩ := r5
              · simpa [Event.ofOperation, or_imp, forall_and] using h
              · simpa [Event.ofOperation, or_imp, forall_and] using h
          · simpa [Event.ofOperation, or_imp, forall_and] using h
        · simpa [Event.ofOperation, or_imp, forall_and] using h
      · simpa [Event.ofOperation, or_imp, forall_and] using h
    · simpa [Event.ofOperation, or_imp, forall_and] using h
  · simpa [Event.ofOperation, or_imp, forall_and] using h

/-- A trace without effects of an operation holds no submission call. -/
theorem no_operation_no_submission (t : List Event) (h : ∀ e ∈ t, e.ofOperation = false) :
    t.countP Event.isWithdraw = 0 ∧ t.countP Event.isDeposit = 0 ∧
      t.countP Event.isTransfer = 0 := by
  refine ⟨?_, ?_, ?_⟩ <;>
  · rw [List.countP_eq_zero]
    intro e he
    have := h e he
    cases e <;> simp_all [Event.isWithdraw, Event.isDeposit, Event.isTransfer,
      Event.ofOperation]

/-- When `newInstance` returns a nil error, the wallet reference it leaves is set: the
last step was called on it. -/
theorem newInstance_ok_wallet (env : Env σ) (s : St σ) (ins : Instance)
    (h : (newInstance env s).1 = Outcome.ret (ins, none)) : ∃ wl, ins.wallet = some wl := by
  revert h
  simp only [newInstance, Go.bind_run, Go.andThen, Go.call_run, Go.callPure_run, Go.getConf_run]
  generalize env.Decode s.conf.AccountPk = d
  obtain ⟨pk, _ | e0⟩ := d
  · simp only [Go.bind_run, Go.andThen, Go.call_run]
    generalize env.NewEthSignerFromRawPrivateKey pk s.conf.ZkChainId s.world = r1
    obtain ⟨⟨sg, _ | e1⟩, w1⟩ := r1
    · simp only [Go.bind_run, Go.andThen, Go.call_run]
      generalize env.NewDefaultProvider s.conf.ZkUrl w1 = r2
      obtain ⟨⟨zp, _ | e2⟩, w2⟩ := r2
      · simp only [Go.bind_run, Go.andThen, Go.call_run]
        generalize env.NewWallet sg zp w2 = r3
        obtain ⟨⟨wl, _ | e3⟩, w3⟩ := r3
        · simp only [Go.bind_run, Go.andThen, Go.call_run]
          generalize env.Dial s.conf.EthUrl w3 = r4
          obtain ⟨⟨cl, _ | e4⟩, w4⟩ := r4
          · cases wl with
            | none => simp [Go.andThen]
            | some wl =>
              simp only [Go.bind_run, Go.andThen, Go.call_run, Go.deref_some]
              generalize env.CreateEthereumProvider wl cl w4 = r5
              obtain ⟨⟨ep, _ | e5⟩, w5⟩ := r5
              · intro h
                simp at h
                exact ⟨wl, by rw [← h]⟩
              · simp
          · simp
        · simp
      · simp
    · simp
  · simp

/-- `Withdrawal`, on an instance whose signer and wallet references are set, adds
exactly one `Withdraw` call to the trace and no `Deposit` or `Transfer` call, whether
the withdrawal is accepted or not. -/
theorem Withdrawal_submissions (env : Env σ) (ins : Instance) (s : St σ) (sg : Signer)
    (wl : Wallet) (hs : ins.signer = some sg) (hw : ins.wallet = some wl) :
    (Withdrawal env ins s).2.out.countP Event.isWithdraw
        = s.out.countP Event.isWithdraw + 1 ∧
      (Withdrawal env ins s).2.out.countP Event.isDeposit = s.out.countP Event.isDeposit ∧
      (Withdrawal env ins s).2.out.countP Event.isTransfer = s.out.countP Event.isTransfer := by
  simp only [Withdrawal, split, Go.bind_run, Go.andThen, Go.emit_run, Go.call_run, hs, hw,
    Go.deref_some]
  generalize env.GetBalanceOf wl (env.GetAddress sg) Token.CreateETH
    BlockNumber.BlockNumberCommitted s.world = b
  obtain ⟨⟨b1, e1⟩, w1⟩ := b
  simp only []
  generalize env.Withdraw wl (env.GetAddress sg) 1000000000000 w1 = r
  obtain ⟨⟨h, _ | err⟩, w2⟩ := r
  · simp [Go.andThen, List.countP_append, List.countP_cons, Event.isWithdraw, Event.isDeposit,
      Event.isTransfer]
  · simp [List.countP_append, List.countP_cons, Event.isWithdraw, Event.isDeposit,
      Event.isTransfer]

/-- C6: exactly one operation runs per invocation of `main`, and it is `Withdrawal`.
(1) In every run in which config loading succeeds and `newInstance` returns a nil error
and an instance whose signer reference is set, `main` continues as `Withdrawal` on
that instance, and the whole trace of the run holds exactly one `Withdraw` call, no
`Deposit` call and no `Transfer` call.  (2) In every run in which config loading
panics, or `newInstance` returns an error or panics, `main` panics (for a returned
error with the message `generate instance failed, err: ...`) and the trace holds no
effect of any operation: none of the three is started. -/
theorem main_one_operation (env : Env σ) (w0 : σ) :
    (∀ s1 ins s2 sg, initConfig env (St.start w0) = (Outcome.ret (), s1) →
      newInstance env s1 = (Outcome.ret (ins, none), s2) → ins.signer = some sg →
      main env (St.start w0) = Withdrawal env ins s2 ∧
        (main env (St.start w0)).2.out.countP Event.isWithdraw = 1 ∧
        (main env (St.start w0)).2.out.countP Event.isDeposit = 0 ∧
        (main env (St.start w0)).2.out.countP Event.isTransfer = 0) ∧
    (∀ p s1, initConfig env (St.start w0) = (Outcome.panic p, s1) →
      (main env (St.start w0)).1 = Outcome.panic p ∧
        ∀ e ∈ (main env (St.start w0)).2.out, e.ofOperation = false) ∧
    (∀ s1 ins err s2, initConfig env (St.start w0) = (Outcome.ret (), s1) →
      newInstance env s1 = (Outcome.ret (ins, some err), s2) →
      (main env (St.start w0)).1
          = Outcome.panic (Panic.msg ("generate instance failed, err: " ++ err.Error)) ∧
        ∀ e ∈ (main env (St.start w0)).2.out, e.ofOperation = false) ∧
    (∀ s1 p s2, initConfig env (St.start w0) = (Outcome.ret (), s1) →
      newInstance env s1 = (Outcome.panic p, s2) →
      (main env (St.start w0)).1 = Outcome.panic p ∧
        ∀ e ∈ (main env (St.start w0)).2.out, e.ofOperation = false) := by
  have hinit : ∀ e ∈ (initConfig env (St.start w0)).2.out, e.ofOperation = false :=
    initConfig_no_operation env (St.start w0) (by simp [St.start])
  refine ⟨?_, ?_, ?_, ?_⟩
  · intro s1 ins s2 sg h1 h2 hs
    have hm : main env (St.start w0) = Withdrawal env ins s2 := by
      simp [main, Go.andThen, h1, h2]
    obtain ⟨wl, hw⟩ := newInstance_ok_wallet env s1 ins (by rw [h2])
    have hs1 : ∀ e ∈ s1.out, e.ofOperation = false := by
      rw [h1] at hinit
      exact hinit
    have hs2 : ∀ e ∈ s2.out, e.ofOperation = false := by
      have := newInstance_no_operation env s1 hs1
      rw [h2] at this
      exact this
    obtain ⟨z1, z2, z3⟩ := no_operation_no_submission s2.out hs2
    obtain ⟨c1, c2, c3⟩ := Withdrawal_submissions env ins s2 sg wl hs hw
    refine ⟨hm, ?_, ?_, ?_⟩
    · rw [hm, c1, z1]
    · rw [hm, c2, z2]
    · rw [hm, c3, z3]
  · intro p s1 h1
    have hm : main env (St.start w0) = (Outcome.panic p, s1) := by
      simp [main, Go.andThen, h1]
    rw [h1] at hinit
    rw [hm]
    exact ⟨rfl, hinit⟩
  · intro s1 ins err s2 h1 h2
    have hm : main env (St.start w0)
        = (Outcome.panic (Panic.msg ("generate instance failed, err: " ++ err.Error)), s2) := by
      simp [main, Go.andThen, h1, h2]
    have hs2 := newInstance_no_operation env s1 (by rw [h1] at hinit; exact hinit)
    rw [h2] at hs2
    rw [hm]
    exact ⟨rfl, hs2⟩
  · intro s1 p s2 h1 h2
    have hm : main env (St.start w0) = (Outcome.panic p, s2) := by
      simp [main, Go.andThen, h1, h2]
    have hs2 := newInstance_no_operation env s1 (by rw [h1] at hinit; exact hinit)
    rw [h2] at hs2
    rw [hm]
    exact ⟨rfl, hs2⟩

/-- A full run over the all-succeeding mock: one `Withdraw`, no `Deposit`, no `Transfer`. -/
theorem main_one_operation_witness :
    initConfig okEnv (St.start 0)
        = (Outcome.ret (),
            ⟨1, demoConf, [Event.ReadFile "config.json", Event.Unmarshal [123, 125]]⟩) ∧
      (newInstance okEnv
          ⟨1, demoConf, [Event.ReadFile "config.json", Event.Unmarshal [123, 125]]⟩).1
        = Outcome.ret (demoIns, none) ∧
      demoIns.signer = some ⟨1⟩ ∧
      (main okEnv (St.start 0)).1 = Outcome.ret () ∧
      (main okEnv (St.start 0)).2.out.countP Event.isWithdraw = 1 ∧
      (main okEnv (St.start 0)).2.out.countP Event.isDeposit = 0 ∧
      (main okEnv (St.start 0)).2.out.countP Event.isTransfer = 0 :=
  ⟨rfl, rfl, rfl, rfl,
    ((main_one_operation okEnv 0).1
      ⟨1, demoConf, [Event.ReadFile "config.json", Event.Unmarshal [123, 125]]⟩ demoIns
      (newInstance okEnv
        ⟨1, demoConf, [Event.ReadFile "config.json", Event.Unmarshal [123, 125]]⟩).2
      ⟨1⟩ rfl rfl rfl).2⟩

/-! ## Config loading -/

/-- The key of a field is decoded into that field. -/
theorem Config.fieldOf_tag (f : Field) : Config.fieldOf f.tag = some f := by
  cases f <;> decide

/-- Two configurations with the same content in every field are equal. -/
theorem Config.eq_of_get (c t : Config) (h : ∀ f, c.get f = t.get f) : c = t := by
  obtain ⟨a, b, d, n⟩ := c
  obtain ⟨a', b', d', n'⟩ := t
  have h1 := h Field.AccountPk
  have h2 := h Field.ZkUrl
  have h3 := h Field.EthUrl
  have h4 := h Field.ZkChainId
  simp only [Config.get, JVal.str.injEq, JVal.num.injEq] at h1 h2 h3 h4
  subst h1 h2 h3 h4
  rfl

/-- Storing the content `t` has for a field succeeds, sets that field and leaves the
other fields alone. -/
theorem Config.store_get (J : Json) (c t : Config) (f : Field)
    (h1 : -9223372036854775808 ≤ t.ZkChainId) (h2 : t.ZkChainId ≤ 9223372036854775807) :
    (Config.store J c f (t.get f)).2 = none ∧
      (Config.store J c f (t.get f)).1.get f = t.get f ∧
      ∀ g, g ≠ f → (Config.store J c f (t.get f)).1.get g = c.get g := by
  cases f
  all_goals
    refine ⟨by simp [Config.store, Config.get, h1, h2],
      by simp [Config.store, Config.get, h1, h2], ?_⟩
    intro g hg
    cases g <;> first | exact absurd rfl hg | simp [Config.store, Config.get, h1, h2]

/-- Decoding members that all carry the content of `t` reports no error and leaves each
field that some member is decoded into, or that held the content of `t` already, with
the content of `t`. -/
theorem decodeMember_foldl (J : Json) (t : Config)
    (h1 : -9223372036854775808 ≤ t.ZkChainId) (h2 : t.ZkChainId ≤ 9223372036854775807) :
    ∀ (members : List (String × JVal)) (acc : Config × Option Err), acc.2 = none →
      (∀ m ∈ members, ∀ f, Config.fieldOf m.1 = some f → m.2 = t.get f) →
      (members.foldl (decodeMember J) acc).2 = none ∧
        ∀ f, ((∃ m ∈ members, Config.fieldOf m.1 = some f) ∨ acc.1.get f = t.get f) →
          (members.foldl (decodeMember J) acc).1.get f = t.get f := by
  intro members
  induction members with
  | nil =>
    intro acc hacc _
    refine ⟨hacc, ?_⟩
    intro f hf
    rcases hf with ⟨m, hm, _⟩ | hf
    · cases hm
    · exact hf
  | cons m rest ih =>
    intro acc hacc hall
    have hrest : ∀ m' ∈ rest, ∀ f, Config.fieldOf m'.1 = some f → m'.2 = t.get f :=
      fun m' hm' => hall m' (List.mem_cons_of_mem m hm')
    rw [List.foldl_cons]
    cases hk : Config.fieldOf m.1 with
    | none =>
      have hstep : decodeMember J acc m = acc := by simp [decodeMember, hk]
      rw [hstep]
      obtain ⟨e, g⟩ := ih acc hacc hrest
      refine ⟨e, ?_⟩
      intro f hf
      apply g
      rcases hf with ⟨m', hm', hf'⟩ | hf
      · rcases List.mem_cons.mp hm' with rfl | hm''
        · rw [hk] at hf'
          cases hf'
        · exact Or.inl ⟨m', hm'', hf'⟩
      · exact Or.inr hf
    | some k =>
      have hv : m.2 = t.get k := hall m (List.mem_cons_self m rest) k hk
      have hstep : decodeMember J acc m = Config.store J acc.1 k (t.get k) := by
        simp [decodeMember, hk, hacc, hv]
      obtain ⟨s1, s2, s3⟩ := Config.store_get J acc.1 t k h1 h2
      rw [hstep]
      obtain ⟨e, g⟩ := ih (Config.store J acc.1 k (t.get k)) s1 hrest
      refine ⟨e, ?_⟩
      intro f hf
      apply g
      by_cases hfk : f = k
      · subst hfk
        exact Or.inr s2
      · rcases hf with ⟨m', hm', hf'⟩ | hf
        · rcases List.mem_cons.mp hm' with rfl | hm''
          · rw [hk] at hf'
            exact absurd (Option.some.inj hf').symm hfk
          · exact Or.inl ⟨m', hm'', hf'⟩
        · exact Or.inr ((s3 f hfk).trans hf)

/-- Decoding an object that binds each of the four keys yields exactly the record of the
four values, whatever the record held before. -/
theorem UnmarshalConfig_bound (J : Json) (raw : Bytes) (c0 : Config)
    (members : List (String × JVal)) (a b c : String) (n : Int)
    (hp : J.parse raw = Except.ok (JDoc.object members))
    (ha : Binds members Field.AccountPk (JVal.str a))
    (hb : Binds members Field.ZkUrl (JVal.str b))
    (hc : Binds members Field.EthUrl (JVal.str c))
    (hn : Binds members Field.ZkChainId (JVal.num n))
    (h1 : -9223372036854775808 ≤ n) (h2 : n ≤ 9223372036854775807) :
    UnmarshalConfig J raw c0 = (⟨a, b, c, n⟩, none) := by
  have hall : ∀ m ∈ members, ∀ f, Config.fieldOf m.1 = some f
      → m.2 = (Config.mk a b c n).get f := by
    intro m hm f hf
    cases f
    · exact ha.2 m hm hf
    · exact hb.2 m hm hf
    · exact hc.2 m hm hf
    · exact hn.2 m hm hf
  obtain ⟨e, g⟩ := decodeMember_foldl J ⟨a, b, c, n⟩ h1 h2 members (c0, none) rfl hall
  have hmem : ∀ f, ∃ m ∈ members, Config.fieldOf m.1 = some f := by
    intro f
    cases f
    · exact ⟨_, ha.1, Config.fieldOf_tag Field.AccountPk⟩
    · exact ⟨_, hb.1, Config.fieldOf_tag Field.ZkUrl⟩
    · exact ⟨_, hc.1, Config.fieldOf_tag Field.EthUrl⟩
    · exact ⟨_, hn.1, Config.fieldOf_tag Field.ZkChainId⟩
  have hcfg : (members.foldl (decodeMember J) (c0, none)).1 = ⟨a, b, c, n⟩ :=
    Config.eq_of_get _ _ (fun f => g f (Or.inl (hmem f)))
  simp only [UnmarshalConfig, hp]
  exact Prod.ext hcfg e

/-- C8: config loading, with `json.Unmarshal` decoding by the struct tags of `Config`.
(1) When `config.json` is read and its content is well-formed JSON, an object binding
the keys `account_pk`, `zk_url`, `eth_url` to strings `a`, `b`, `c` and `zk_chain_id`
to an integer `n` of the range of `int64` (other keys may be present), the call returns
normally and leaves `conf` with `AccountPk = a`, `ZkUrl = b`, `EthUrl = c` and
`ZkChainId = n`.  (2) When reading the file fails, the call panics with a message
starting `read config file failed`; nothing is parsed and `conf` is untouched.  (3) When
the content is not parseable as JSON, the call panics with a message starting
`unmarshal config failed`, `conf` untouched.  (4) So it does for any other error of the
decoder.  In (2) to (4) the call does not return. -/
theorem initConfig_contract (env : Env σ) (J : Json) (s : St σ) :
    (∀ raw w1 members a b c n,
      env.ReadFile "config.json" s.world = ((raw, none), w1) →
      J.parse raw = Except.ok (JDoc.object members) →
      Binds members Field.AccountPk (JVal.str a) →
      Binds members Field.ZkUrl (JVal.str b) →
      Binds members Field.EthUrl (JVal.str c) →
      Binds members Field.ZkChainId (JVal.num n) →
      -9223372036854775808 ≤ n → n ≤ 9223372036854775807 →
      initConfig (env.withJson J) s
        = (Outcome.ret (),
            ⟨w1, ⟨a, b, c, n⟩,
              s.out ++ [Event.ReadFile "config.json", Event.Unmarshal raw]⟩)) ∧
    (∀ raw w1 err, env.ReadFile "config.json" s.world = ((raw, some err), w1) →
      initConfig (env.withJson J) s
          = (Outcome.panic (Panic.msg ("read config file failed, err: " ++ err.Error)),
              ⟨w1, s.conf, s.out ++ [Event.ReadFile "config.json"]⟩) ∧
        "read config file failed, err: " ++ err.Error
          = "read config file failed" ++ (", err: " ++ err.Error)) ∧
    (∀ raw w1 err, env.ReadFile "config.json" s.world = ((raw, none), w1) →
      J.parse raw = Except.error err →
      initConfig (env.withJson J) s
          = (Outcome.panic (Panic.msg ("unmarshal config failed, err: " ++ err.Error)),
              ⟨w1, s.conf, s.out ++ [Event.ReadFile "config.json", Event.Unmarshal raw]⟩) ∧
        "unmarshal config failed, err: " ++ err.Error
          = "unmarshal config failed" ++ (", err: " ++ err.Error)) ∧
    (∀ raw w1 c err, env.ReadFile "config.json" s.world = ((raw, none), w1) →
      UnmarshalConfig J raw s.conf = (c, some err) →
      initConfig (env.withJson J) s
        = (Outcome.panic (Panic.msg ("unmarshal config failed, err: " ++ err.Error)),
            ⟨w1, c, s.out ++ [Event.ReadFile "config.json", Event.Unmarshal raw]⟩)) := by
  refine ⟨?_, ?_, ?_, ?_⟩
  · intro raw w1 members a b c n hr hp ha hb hc hn h1 h2
    have hu := UnmarshalConfig_bound J raw s.conf members a b c n hp ha hb hc hn h1 h2
    simp [initConfig, Env.withJson, Go.andThen, hr, hu]
  · intro raw w1 err hr
    refine ⟨by simp [initConfig, Env.withJson, Go.andThen, hr], ?_⟩
    rw [← String.append_assoc]
    rfl
  · intro raw w1 err hr hp
    have hu : UnmarshalConfig J raw s.conf = (s.conf, some err) := by
      simp [UnmarshalConfig, hp]
    refine ⟨by simp [initConfig, Env.withJson, Go.andThen, hr, hu], ?_⟩
    rw [← String.append_assoc]
    rfl
  · intro raw w1 c err hr hu
    simp [initConfig, Env.withJson, Go.andThen, hr, hu]

/-- The scenario's `config.json` is loaded into the scenario's configuration; the text
`x` is rejected with the parser's error. -/
theorem initConfig_contract_witness :
    configFileEnv.ReadFile "config.json" (St.start 0 : St Nat).world
        = ((configBytes, none), 1) ∧
      demoJson.parse configBytes = Except.ok (JDoc.object configMembers) ∧
      Binds configMembers Field.AccountPk (JVal.str "0x01") ∧
      Binds configMembers Field.ZkUrl (JVal.str "http://mock-l2") ∧
      Binds configMembers Field.EthUrl (JVal.str "http://mock-l1") ∧
      Binds configMembers Field.ZkChainId (JVal.num 270) ∧
      initConfig (configFileEnv.withJson demoJson) (St.start 0)
        = (Outcome.ret (),
            ⟨1, ⟨"0x01", "http://mock-l2", "http://mock-l1", 270⟩,
              (St.start 0 : St Nat).out
                ++ [Event.ReadFile "config.json", Event.Unmarshal configBytes]⟩) ∧
      demoJson.parse [120]
        = Except.error ⟨"invalid character 'x' looking for beginning of value"⟩ ∧
      initConfig (badJsonEnv.withJson demoJson) (St.start 0)
        = (Outcome.panic (Panic.msg ("unmarshal config failed, err: "
              ++ "invalid character 'x' looking for beginning of value")),
            ⟨1, (St.start 0 : St Nat).conf,
              (St.start 0 : St Nat).out
                ++ [Event.ReadFile "config.json", Event.Unmarshal [120]]⟩) :=
  ⟨rfl, rfl, by unfold Binds; decide, by unfold Binds; decide,
    by unfold Binds; decide, by unfold Binds; decide,
    (initConfig_contract configFileEnv demoJson (St.start 0)).1 configBytes 1 configMembers
      "0x01" "http://mock-l2" "http://mock-l1" 270 rfl rfl
      (by unfold Binds; decide) (by unfold Binds; decide) (by unfold Binds; decide)
      (by unfold Binds; decide) (by decide) (by decide),
    rfl,
    ((initConfig_contract badJsonEnv demoJson (St.start 0)).2.2.1 [120] 1
      ⟨"invalid character 'x' looking for beginning of value"⟩ rfl rfl).1⟩

end ZkExample
